import Mathlib

/-
Formal model of the Arduino solar-excess load controller
(countTime.h, radio.h, values.h, loads.h), as a shallow embedding.

Modelling conventions:
- C `float` quantities are embedded as exact rationals; every arithmetic
  step of the source is reproduced, only the rounding of IEEE floats is
  idealised away (none of the proved properties depends on rounding).
- C `unsigned long` arithmetic is modelled on natural numbers with an
  explicit reduction modulo 2 ^ 32 wherever wrap-around matters.
- Arduino environment primitives (digitalRead, random) are passed in as
  explicit parameters: digitalRead becomes a function from pin number to
  boolean level (HIGH = true), and a call to random(a, b) becomes a value
  together with the predicate randomPossible a b describing the values
  the Arduino implementation of random may return.
- `sqrt` from the C library is passed to Values.compute as an abstract
  function parameter sqrtA; no proved property depends on its values.
- Per-load arrays of the C code become total functions from the index;
  entries at or beyond nLoads are carried unchanged, as in the source.
-/

namespace SolarDiverter

/-! Environment and numeric helpers -/

/-- Modulus of C unsigned long arithmetic on the Arduino Mega (32 bits). -/
def UINT32_MOD : Nat := 2 ^ 32

/-- Arduino constrain macro: ((amt)<(low)?(low):((amt)>(high)?(high):(amt))). -/
def constrain (x lo hi : ℚ) : ℚ :=
  if x < lo then lo else if x > hi then hi else x

/-- Sum of f 0 + f 1 + ... + f (n-1), the accumulation loops of the C code. -/
def sumOf (f : Nat → Int) (n : Nat) : Int :=
  ((List.range n).map f).sum

/-- The values the Arduino random(howsmall, howbig) may return: the AVR core
implementation returns howsmall when howsmall >= howbig, and otherwise a
value in the half-open range from howsmall to howbig. -/
def randomPossible (howsmall howbig r : Int) : Bool :=
  if howsmall ≥ howbig then decide (r = howsmall)
  else decide (howsmall ≤ r) && decide (r < howbig)

/-! Radio (radio.h) -/

/-- enum Radio::RadioHW from radio.h; the source constant NO_RADIO is
renamed noRadio here. -/
inductive RadioHW where
  | noRadio
  | RADIO_GMOMXEN
deriving DecidableEq

/-- Return status of Radio::sendGmomxen: the function returns -2 when the
channel lies outside 1..3; for an in-range channel the C function transmits
the code and then falls off the end without a return statement, so the value
returned to the caller is unspecified (modelled as none). -/
def Radio.sendGmomxenRet (channel : Int) (_setToOn : Bool) : Option Int :=
  if channel < 1 ∨ channel > 3 then some (-2) else none

/-- Return value of Radio::send. The C switch statement has no break after
the RADIO_GMOMXEN case, so after `ret = sendGmomxen(channel, setToOn)`
control falls through into the default label, which overwrites ret with -1;
for noRadio no case matches and the default label also sets ret to -1. -/
def Radio.send (radioType : RadioHW) (channel : Int) (setToOn : Bool) : Int :=
  match radioType with
  | RadioHW.RADIO_GMOMXEN => (fun _ret => -1) (Radio.sendGmomxenRet channel setToOn)
  | RadioHW.noRadio => -1

/-! Scheduler (countTime.h) -/

/-- State of class CountTime. The hhmmss text buffer is the decimal
rendering of hours, minutes and seconds and is carried implicitly by those
three fields; prevLoopStart_us and loopTime_us are kept for fidelity. -/
structure CountTimeState where
  lastTime : Nat
  hours : Int
  minutes : Int
  seconds : Int
  flagOneSec : Bool
  decidePeriod_s : Int
  countDecide_s : Int
  flagDecide : Bool
  refreshPeriod_s : Int
  varRefreshPeriod_s : Int
  countRefresh_s : Int
  flagRefresh : Bool
  prevLoopStart_us : Nat
  loopTime_us : Nat

/-- CountTime::update. nowMs is the value of millis(), nowUs the value of
micros(), and rand the value returned by the call
random(-varRefreshPeriod_s, +varRefreshPeriod_s) in case that call is
reached. All flags are cleared first; if less than 1000 ms have elapsed
since lastTime the function returns at once, otherwise the second counter
advances with 60/60 rollover and the two countdowns are decremented,
firing and reloading when they reach zero. -/
def CountTime.update (nowMs nowUs : Nat) (rand : Int) (s : CountTimeState) :
    CountTimeState :=
  if ((nowMs % UINT32_MOD) + UINT32_MOD - (s.lastTime % UINT32_MOD)) % UINT32_MOD < 1000 then
    { s with flagOneSec := false, flagDecide := false, flagRefresh := false,
             loopTime_us := ((nowUs % UINT32_MOD) + UINT32_MOD - (s.prevLoopStart_us % UINT32_MOD)) % UINT32_MOD,
             prevLoopStart_us := nowUs % UINT32_MOD }
  else
    { s with
      loopTime_us := ((nowUs % UINT32_MOD) + UINT32_MOD - (s.prevLoopStart_us % UINT32_MOD)) % UINT32_MOD
      prevLoopStart_us := nowUs % UINT32_MOD
      lastTime := (s.lastTime + 1000) % UINT32_MOD
      flagOneSec := true
      seconds := if s.seconds + 1 ≥ 60 then 0 else s.seconds + 1
      minutes := if s.seconds + 1 ≥ 60 then
                   (if s.minutes + 1 ≥ 60 then 0 else s.minutes + 1)
                 else s.minutes
      hours := if s.seconds + 1 ≥ 60 ∧ s.minutes + 1 ≥ 60 then s.hours + 1 else s.hours
      countDecide_s := if s.countDecide_s - 1 ≤ 0 then s.decidePeriod_s else s.countDecide_s - 1
      flagDecide := decide (s.countDecide_s - 1 ≤ 0)
      countRefresh_s := if s.countRefresh_s - 1 ≤ 0 then s.refreshPeriod_s + rand
                        else s.countRefresh_s - 1
      flagRefresh := decide (s.countRefresh_s - 1 ≤ 0) }

/-! Simulation console view (simul.h) and sample-cycle view (measure.h) -/

/-- enum Simul::SimulMode from simul.h. -/
inductive SimulMode where
  | NO_SIMUL
  | SIMUL_ANALOG
  | SIMUL_POWER
deriving DecidableEq

/-- The fields of class Simul read by Values::compute. -/
structure SimulState where
  mode : SimulMode
  Pg : Int
  Pc : Int

/-- The fields of class Measure read by Values::compute: one grid cycle of
samples (int arrays indexed 0..numSamples-1) and the cycle timestamps. -/
structure MeasureState where
  numSamples : Nat
  V0 : Nat → Int
  Vx : Nat → Int
  Ig : Nat → Int
  Ic : Nat → Int
  samplingUs : Nat → Int
  prevCycleStartUs : Nat
  cycleStartUs : Nat

/-! Signal processor (values.h) -/

/-- State of class Values; float fields embedded as rationals, the
unsigned long interval as a natural number. startUs and endUs are plain
micros() timestamps with no effect on any computation and are omitted. -/
structure ValuesState where
  V0RefV : ℚ
  MaxAmplV : ℚ
  VxRatio : ℚ
  IgRatio : ℚ
  IcRatio : ℚ
  V0Avg : ℚ
  VoltsPerCount : ℚ
  VxEff : ℚ
  IgEff : ℚ
  IcEff : ℚ
  Pg : ℚ
  Pc : ℚ
  Pn : ℚ
  PFg : ℚ
  PFc : ℚ
  TimeConst : ℚ
  PgFilt : ℚ
  PcFilt : ℚ
  PnFilt : ℚ
  MaxConsumpt : ℚ
  Margin : ℚ
  interval : Nat
  samplingTimeAvg_us : Int

/-- The averaged offset of one cycle: the C long division of the summed
V0 samples by numSamples (truncation toward zero). -/
def Values.offsetOf (cm : MeasureState) : Int :=
  sumOf cm.V0 cm.numSamples / (cm.numSamples : Int)

/-- The volts-per-count conversion factor, with the max-1 floor of the
source avoiding division by zero. -/
def Values.voltsPerCountOf (s : ValuesState) (cm : MeasureState) : ℚ :=
  s.V0RefV / max 1 ((Values.offsetOf cm : Int) : ℚ)

/-- The unclipped RMS grid voltage: root of the mean squared deviation,
scaled by VoltsPerCount and VxRatio; sqrtA stands for the C sqrt. -/
def Values.VxEffRaw (sqrtA : ℚ → ℚ) (s : ValuesState) (cm : MeasureState) : ℚ :=
  sqrtA ((sumOf (fun i => (cm.Vx i - Values.offsetOf cm) * (cm.Vx i - Values.offsetOf cm))
            cm.numSamples : ℚ) / (cm.numSamples : ℚ)) *
    (Values.voltsPerCountOf s cm * s.VxRatio)

/-- The unclipped RMS generation current. -/
def Values.IgEffRaw (sqrtA : ℚ → ℚ) (s : ValuesState) (cm : MeasureState) : ℚ :=
  sqrtA ((sumOf (fun i => (cm.Ig i - Values.offsetOf cm) * (cm.Ig i - Values.offsetOf cm))
            cm.numSamples : ℚ) / (cm.numSamples : ℚ)) *
    (Values.voltsPerCountOf s cm * s.IgRatio)

/-- The unclipped RMS consumption current. -/
def Values.IcEffRaw (sqrtA : ℚ → ℚ) (s : ValuesState) (cm : MeasureState) : ℚ :=
  sqrtA ((sumOf (fun i => (cm.Ic i - Values.offsetOf cm) * (cm.Ic i - Values.offsetOf cm))
            cm.numSamples : ℚ) / (cm.numSamples : ℚ)) *
    (Values.voltsPerCountOf s cm * s.IcRatio)

/-- The measured generated power, forced non-negative by the source
(Pg = abs(Pg), wiring polarity unknown). -/
def Values.PgMeasured (s : ValuesState) (cm : MeasureState) : ℚ :=
  |(sumOf (fun i => (cm.Ig i - Values.offsetOf cm) * (cm.Vx i - Values.offsetOf cm))
      cm.numSamples : ℚ) / (cm.numSamples : ℚ) *
    (Values.voltsPerCountOf s cm * s.IgRatio) * (Values.voltsPerCountOf s cm * s.VxRatio)|

/-- The measured consumed power, forced non-positive by the source
(Pc = -abs(Pc)). -/
def Values.PcMeasured (s : ValuesState) (cm : MeasureState) : ℚ :=
  -|(sumOf (fun i => (cm.Ic i - Values.offsetOf cm) * (cm.Vx i - Values.offsetOf cm))
       cm.numSamples : ℚ) / (cm.numSamples : ℚ) *
     (Values.voltsPerCountOf s cm * s.IcRatio) * (Values.voltsPerCountOf s cm * s.VxRatio)|

/-- The unclipped generation power factor, with the max-1 floor. -/
def Values.PFgRaw (sqrtA : ℚ → ℚ) (s : ValuesState) (cm : MeasureState) : ℚ :=
  Values.PgMeasured s cm / max 1 (Values.VxEffRaw sqrtA s cm * Values.IgEffRaw sqrtA s cm)

/-- The unclipped consumption power factor, with the max-1 floor. -/
def Values.PFcRaw (sqrtA : ℚ → ℚ) (s : ValuesState) (cm : MeasureState) : ℚ :=
  -Values.PcMeasured s cm / max 1 (Values.VxEffRaw sqrtA s cm * Values.IcEffRaw sqrtA s cm)

/-- Generated power after the simulation override: replaced wholesale by
the console value when power simulation is active. -/
def Values.PgSim (_sqrtA : ℚ → ℚ) (sm : SimulState) (s : ValuesState) (cm : MeasureState) : ℚ :=
  if sm.mode = SimulMode.SIMUL_POWER then (sm.Pg : ℚ) else Values.PgMeasured s cm

/-- Consumed power after the simulation override (negated console value). -/
def Values.PcSim (_sqrtA : ℚ → ℚ) (sm : SimulState) (s : ValuesState) (cm : MeasureState) : ℚ :=
  if sm.mode = SimulMode.SIMUL_POWER then -(sm.Pc : ℚ) else Values.PcMeasured s cm

/-- The clipped generated power. -/
def Values.PgClip (sqrtA : ℚ → ℚ) (sm : SimulState) (s : ValuesState) (cm : MeasureState) : ℚ :=
  constrain (Values.PgSim sqrtA sm s cm) 0 9999

/-- The clipped consumed power. -/
def Values.PcClip (sqrtA : ℚ → ℚ) (sm : SimulState) (s : ValuesState) (cm : MeasureState) : ℚ :=
  constrain (Values.PcSim sqrtA sm s cm) (-9999) 0

/-- The clipped net power: Pn = Pg + Pc is formed before the clipping
block, so the net clip applies to the unclipped sum. -/
def Values.PnClip (sqrtA : ℚ → ℚ) (sm : SimulState) (s : ValuesState) (cm : MeasureState) : ℚ :=
  constrain (Values.PgSim sqrtA sm s cm + Values.PcSim sqrtA sm s cm) (-9999) 9999

/-- The filter blend weight alpha = min(1, interval / TimeConst). -/
def Values.alphaOf (s : ValuesState) : ℚ :=
  min 1 ((s.interval : ℚ) / s.TimeConst)

/-- The new filtered generated power: seeded from the clipped raw value on
the first cycle (interval 0), exponentially blended afterwards. -/
def Values.PgFiltNew (sqrtA : ℚ → ℚ) (sm : SimulState) (cm : MeasureState) (s : ValuesState) : ℚ :=
  if s.interval = 0 then Values.PgClip sqrtA sm s cm
  else s.PgFilt + Values.alphaOf s * (Values.PgClip sqrtA sm s cm - s.PgFilt)

/-- The new filtered consumed power. -/
def Values.PcFiltNew (sqrtA : ℚ → ℚ) (sm : SimulState) (cm : MeasureState) (s : ValuesState) : ℚ :=
  if s.interval = 0 then Values.PcClip sqrtA sm s cm
  else s.PcFilt + Values.alphaOf s * (Values.PcClip sqrtA sm s cm - s.PcFilt)

/-- The new filtered net power: the seeded clipped net on the first cycle,
and the sum of the two filtered components afterwards. -/
def Values.PnFiltNew (sqrtA : ℚ → ℚ) (sm : SimulState) (cm : MeasureState) (s : ValuesState) : ℚ :=
  if s.interval = 0 then Values.PnClip sqrtA sm s cm
  else Values.PgFiltNew sqrtA sm cm s + Values.PcFiltNew sqrtA sm cm s

/-- Values::compute. sqrtA stands for the C library sqrt applied to the
mean square (abstract: no proved property depends on its values). The
local variables of the C function are factored into the component
functions above, each reproducing the source expression for that output;
the single if/else that assigns the three filtered values is reproduced
per component, with alpha only entering the non-first-cycle branch, the
same computation. The two integer divisions by numSamples are C long
divisions; all other divisions are float divisions, exact here. -/
def Values.compute (sqrtA : ℚ → ℚ) (sm : SimulState) (cm : MeasureState)
    (s : ValuesState) : ValuesState :=
  { s with
    samplingTimeAvg_us := sumOf cm.samplingUs cm.numSamples / (cm.numSamples : Int)
    V0Avg := ((Values.offsetOf cm : Int) : ℚ)
    VoltsPerCount := Values.voltsPerCountOf s cm
    VxEff := constrain (Values.VxEffRaw sqrtA s cm) 0 999
    IgEff := constrain (Values.IgEffRaw sqrtA s cm) 0 99
    IcEff := constrain (Values.IcEffRaw sqrtA s cm) 0 99
    Pg := Values.PgClip sqrtA sm s cm
    Pc := Values.PcClip sqrtA sm s cm
    Pn := Values.PnClip sqrtA sm s cm
    PFg := constrain (Values.PFgRaw sqrtA s cm) 0 (99 / 100)
    PFc := constrain (Values.PFcRaw sqrtA s cm) 0 (99 / 100)
    PgFilt := Values.PgFiltNew sqrtA sm cm s
    PcFilt := Values.PcFiltNew sqrtA sm cm s
    PnFilt := Values.PnFiltNew sqrtA sm cm s
    Margin := s.MaxConsumpt - (-Values.PcFiltNew sqrtA sm cm s)
    interval := if cm.prevCycleStartUs = 0 then 0
                else ((cm.cycleStartUs % UINT32_MOD) + UINT32_MOD - (cm.prevCycleStartUs % UINT32_MOD)) % UINT32_MOD }

/-! Load decision engine and activation dispatcher (loads.h) -/

/-- const POWER_REDUCTION_FACTOR = 0.85 from loads.h. -/
def POWER_REDUCTION_FACTOR : ℚ := 85 / 100

/-- State of class Loads: the registry counter, the most recent change
cause, and the per-load configuration and status arrays as functions of
the load index (position = priority, lower index = higher priority). -/
structure LoadsState where
  nLoadsMax : Nat
  nLoads : Nat
  cause : String
  name : Nat → String
  powerW : Nat → ℚ
  lockOnSec : Nat → Int
  lockOffSec : Nat → Int
  gpioOut : Nat → Int
  gpioMode : Nat → Int
  radioModel : Nat → RadioHW
  channel : Nat → Int
  solarMode : Nat → Bool
  flag : Nat → Bool
  isOn : Nat → Bool
  lockSec : Nat → Int

/-- Loads::add. dRead is the environment digitalRead. On success the new
load is written at slot nLoads: flag true, on false, lockSec 0, solarMode
read from the mode switch input when a pin is assigned and true otherwise;
then nLoads is incremented and 0 returned. When the registry is full the
state is untouched and -1 returned. -/
def Loads.add (dRead : Int → Bool) (name_arg : String) (powerW_arg : ℚ)
    (lockOnSec_arg lockOffSec_arg gpioOut_arg gpioMode_arg : Int)
    (radioModel_arg : RadioHW) (channel_arg : Int) (s : LoadsState) :
    Int × LoadsState :=
  if s.nLoads ≥ s.nLoadsMax then (-1, s)
  else
    (0,
     { s with
       name := Function.update s.name s.nLoads name_arg
       powerW := Function.update s.powerW s.nLoads powerW_arg
       lockOnSec := Function.update s.lockOnSec s.nLoads lockOnSec_arg
       lockOffSec := Function.update s.lockOffSec s.nLoads lockOffSec_arg
       gpioOut := Function.update s.gpioOut s.nLoads gpioOut_arg
       gpioMode := Function.update s.gpioMode s.nLoads gpioMode_arg
       radioModel := Function.update s.radioModel s.nLoads radioModel_arg
       channel := Function.update s.channel s.nLoads channel_arg
       flag := Function.update s.flag s.nLoads true
       isOn := Function.update s.isOn s.nLoads false
       lockSec := Function.update s.lockSec s.nLoads 0
       solarMode := Function.update s.solarMode s.nLoads
         (if gpioMode_arg ≠ -1 then dRead gpioMode_arg else true)
       nLoads := s.nLoads + 1 })

/-- The every-second task at the top of Loads::decide: for every index i
below nLoads, solarMode[i] is overwritten with digitalRead(gpioMode[i])
(the source performs this read unconditionally, with no check that a mode
switch pin is assigned) and a positive lockSec[i] is decremented. Each
loop iteration reads and writes only its own index, so the loop is
rendered pointwise. -/
def Loads.oneSecondTask (dRead : Int → Bool) (s : LoadsState) : LoadsState :=
  { s with
    solarMode := fun i => if i < s.nLoads then dRead (s.gpioMode i) else s.solarMode i
    lockSec := fun i => if i < s.nLoads ∧ 0 < s.lockSec i then s.lockSec i - 1 else s.lockSec i }

/-- The state the decision rules run on: the every-second task has been
applied first when flagOneSec is set. -/
def Loads.oneSecState (dRead : Int → Bool) (ct : CountTimeState) (s : LoadsState) :
    LoadsState :=
  if ct.flagOneSec then Loads.oneSecondTask dRead s else s

/-- The common body of a rule switching load i off: on false, change flag
set, lock-off timer loaded, cause recorded. -/
def Loads.switchOff (s : LoadsState) (i : Nat) (c : String) : LoadsState :=
  { s with
    isOn := Function.update s.isOn i false
    flag := Function.update s.flag i true
    lockSec := Function.update s.lockSec i (s.lockOffSec i)
    cause := c }

/-- The body of rule 4 switching load i on: on true, change flag set,
lock-on timer loaded, cause recorded. -/
def Loads.switchOn (s : LoadsState) (i : Nat) (c : String) : LoadsState :=
  { s with
    isOn := Function.update s.isOn i true
    flag := Function.update s.flag i true
    lockSec := Function.update s.lockSec i (s.lockOnSec i)
    cause := c }

/-- Mirrors the descending scans of loads.h, for(i=n-1; i>=0; i--) with a
return at the first index satisfying p: the greatest index below n
satisfying p, none when there is none. -/
def findRev (p : Nat → Bool) : Nat → Option Nat
  | 0 => none
  | n + 1 => if p n then some n else findRev p n

/-- Mirrors the ascending scans, for(i=0; i<n; i++) with a return at the
first index satisfying p. -/
def findFwd (p : Nat → Bool) (n : Nat) : Option Nat :=
  (List.range n).find? p

/-- All pairs (i, j) with i < j < n, in the order visited by the nested
loops of rule 3 (i ascending, then j ascending from i+1). -/
def pairList (n : Nat) : List (Nat × Nat) :=
  (List.range n).flatMap fun i => ((List.range n).filter fun j => i < j).map fun j => (i, j)

/-- Rule 1 selection: when Margin <= 0, the currently-on load of least
priority (greatest index), its lock timer disregarded. -/
def Loads.rule1 (v : ValuesState) (s : LoadsState) : Option Nat :=
  if v.Margin ≤ 0 then findRev s.isOn s.nLoads else none

/-- Rule 2 selection: when PnFilt <= 0, the on, solar-mode, lock-free load
of least priority. -/
def Loads.rule2 (v : ValuesState) (s : LoadsState) : Option Nat :=
  if v.PnFilt ≤ 0 then
    findRev (fun i => s.solarMode i && s.isOn i && decide (s.lockSec i = 0)) s.nLoads
  else none

/-- Rule 3 selection: the first pair, in nested-loop order, of a
higher-priority load i that is off, solar mode and lock-free, and a
lower-priority load j that is on, solar mode and lock-free, whose reduced
nominal power plus PnFilt would cover the power of load i. The nested
loops of the source check the outer condition once per i and the inner
condition per j; scanning the flattened pair list with the conjunction
visits the same first match. -/
def Loads.rule3 (v : ValuesState) (s : LoadsState) : Option (Nat × Nat) :=
  (pairList s.nLoads).find? fun ij =>
    (!s.isOn ij.1 && s.solarMode ij.1 && decide (s.lockSec ij.1 = 0)) &&
    (s.isOn ij.2 && s.solarMode ij.2 && decide (s.lockSec ij.2 = 0) &&
     decide (s.powerW ij.2 * POWER_REDUCTION_FACTOR + v.PnFilt ≥ s.powerW ij.1))

/-- Rule 4 selection: the first (highest-priority) off, lock-free load
whose nominal power is below Margin and, in solar mode, also below
PnFilt. -/
def Loads.rule4 (v : ValuesState) (s : LoadsState) : Option Nat :=
  findFwd (fun i =>
    !s.isOn i && decide (s.lockSec i = 0) && decide (s.powerW i < v.Margin) &&
    (!s.solarMode i || decide (s.powerW i < v.PnFilt))) s.nLoads

/-- The decide-period body of Loads::decide: the four rules in strict
priority order, the first match acting on exactly one load and returning.
Rule evaluation has no side effects, so the sequential early-return
structure of the source is the priority match below. -/
def Loads.decideTask (v : ValuesState) (s : LoadsState) : LoadsState :=
  match Loads.rule1 v s, Loads.rule2 v s, Loads.rule3 v s, Loads.rule4 v s with
  | some i, _, _, _ => Loads.switchOff s i "no margin"
  | none, some i, _, _ => Loads.switchOff s i "no excedent"
  | none, none, some ij, _ => Loads.switchOff s ij.2 "priority inversion"
  | none, none, none, some i =>
      Loads.switchOn s i
        (if s.solarMode i then "enough excedent and margin" else "enough margin")
  | none, none, none, none => s

/-- Loads::decide: the every-second task when flagOneSec is set, then the
decision rules when flagDecide is set. -/
def Loads.decide (dRead : Int → Bool) (ct : CountTimeState) (v : ValuesState)
    (s : LoadsState) : LoadsState :=
  if ct.flagDecide then Loads.decideTask v (Loads.oneSecState dRead ct s)
  else Loads.oneSecState dRead ct s

/-- The externally visible actions of Loads::activate: the two log lines,
the digital output writes and the radio commands, in emission order. -/
inductive OutEvent where
  | printChange (i : Nat)
  | printRefresh (i : Nat)
  | gpioWrite (pin : Int) (level : Bool)
  | radioSend (model : RadioHW) (channel : Int) (setOn : Bool)
deriving DecidableEq

/-- The events one iteration of the Loads::activate loop emits for load i:
nothing unless the change flag or the refresh flag is set; otherwise a log
line (change or refresh form), a digital write when an output pin is
assigned, and a radio command when a radio model is assigned. -/
def Loads.activateEventsFor (s : LoadsState) (refresh : Bool) (i : Nat) :
    List OutEvent :=
  if s.flag i || refresh then
    (if s.flag i then [OutEvent.printChange i] else [OutEvent.printRefresh i]) ++
    (if s.gpioOut i ≠ -1 then [OutEvent.gpioWrite (s.gpioOut i) (s.isOn i)] else []) ++
    (if s.radioModel i ≠ RadioHW.noRadio then
       [OutEvent.radioSend (s.radioModel i) (s.channel i) (s.isOn i)] else [])
  else []

/-- The events of the first n iterations of the Loads::activate loop,
appended in loop order. Each iteration reads only the status of its own
index, which activate never modifies apart from the flag of that same
index, so the per-index event function over the entry state is exact. -/
def Loads.eventsUpTo (s : LoadsState) (refresh : Bool) : Nat → List OutEvent
  | 0 => []
  | n + 1 => Loads.eventsUpTo s refresh n ++ Loads.activateEventsFor s refresh n

/-- Loads::activate: for every registered load whose change flag or the
refresh flag is set, the flag is cleared and the log line, output write
and radio command are emitted; nothing else in the state changes. -/
def Loads.activate (ct : CountTimeState) (s : LoadsState) :
    LoadsState × List OutEvent :=
  ({ s with
     flag := fun i => if i < s.nLoads ∧ (s.flag i || ct.flagRefresh) then false
                      else s.flag i },
   Loads.eventsUpTo s ct.flagRefresh s.nLoads)

/-- The output writes and radio commands of an event list, the effects
that actually drive the loads (log lines dropped). -/
def appliedOutputs (evs : List OutEvent) : List OutEvent :=
  evs.filter fun e =>
    match e with
    | OutEvent.printChange _ => false
    | OutEvent.printRefresh _ => false
    | OutEvent.gpioWrite _ _ => true
    | OutEvent.radioSend _ _ _ => true

/-- The output write and radio command one load contributes to a refresh
pass, a function of its current configuration and on/off state only. -/
def appliedEventsFor (s : LoadsState) (i : Nat) : List OutEvent :=
  (if s.gpioOut i ≠ -1 then [OutEvent.gpioWrite (s.gpioOut i) (s.isOn i)] else []) ++
  (if s.radioModel i ≠ RadioHW.noRadio then
     [OutEvent.radioSend (s.radioModel i) (s.channel i) (s.isOn i)] else [])

/-- The applied outputs of the first n loads, in load order. -/
def appliedUpTo (s : LoadsState) : Nat → List OutEvent
  | 0 => []
  | n + 1 => appliedUpTo s n ++ appliedEventsFor s n

/-! Concrete sample states, used to evaluate the model on explicit inputs -/

/-- An abstract square root stand-in for evaluation (no clipped output of
compute depends on it). -/
def sqrtIdent : ℚ → ℚ := fun x => x

/-- An environment whose digital inputs all read LOW. -/
def dReadFalse : Int → Bool := fun _ => false

/-- A Loads object as constructed, before any registration. -/
def loads0 : LoadsState :=
  { nLoadsMax := 3
    nLoads := 0
    cause := "program start"
    name := fun _ => ""
    powerW := fun _ => 0
    lockOnSec := fun _ => 0
    lockOffSec := fun _ => 0
    gpioOut := fun _ => -1
    gpioMode := fun _ => -1
    radioModel := fun _ => RadioHW.noRadio
    channel := fun _ => 0
    solarMode := fun _ => true
    flag := fun _ => false
    isOn := fun _ => false
    lockSec := fun _ => 0 }

/-- One registered load, currently on, locked for 5 more seconds. -/
def loadsOneOn : LoadsState :=
  { loads0 with
    nLoads := 1
    name := fun _ => "pump"
    powerW := fun _ => 100
    lockOnSec := fun _ => 60
    lockOffSec := fun _ => 60
    isOn := fun _ => true
    lockSec := fun _ => 5 }

/-- The state after registering one load with no output pin, no mode
switch pin (gpioMode -1) and no radio. -/
def loadsNoPin : LoadsState :=
  (Loads.add dReadFalse "pump" 100 60 60 (-1) (-1) RadioHW.noRadio 0 loads0).2

/-- Scheduler flags with only the decide flag set. -/
def ctDecide : CountTimeState :=
  { lastTime := 0
    hours := 0
    minutes := 0
    seconds := 0
    flagOneSec := false
    decidePeriod_s := 5
    countDecide_s := 5
    flagDecide := true
    refreshPeriod_s := 30
    varRefreshPeriod_s := 5
    countRefresh_s := 30
    flagRefresh := false
    prevLoopStart_us := 0
    loopTime_us := 0 }

/-- Scheduler flags with only the one-second flag set. -/
def ctOneSec : CountTimeState :=
  { ctDecide with flagOneSec := true, flagDecide := false }

/-- Scheduler flags with only the refresh flag set. -/
def ctRefresh : CountTimeState :=
  { ctDecide with flagDecide := false, flagRefresh := true }

/-- A scheduler state one second away from the refresh countdown firing,
with all flags down. -/
def ctNearRefresh : CountTimeState :=
  { ctDecide with flagDecide := false, countRefresh_s := 1 }

/-- A Values snapshot with no consumption margin left (Margin = -1). -/
def valuesNoMargin : ValuesState :=
  { V0RefV := 5 / 2
    MaxAmplV := 2
    VxRatio := 163
    IgRatio := 11
    IcRatio := 11
    V0Avg := 0
    VoltsPerCount := 0
    VxEff := 0
    IgEff := 0
    IcEff := 0
    Pg := 0
    Pc := 0
    Pn := 0
    PFg := 0
    PFc := 0
    TimeConst := 1000000
    PgFilt := 0
    PcFilt := 0
    PnFilt := 0
    MaxConsumpt := 2000
    Margin := -1
    interval := 0
    samplingTimeAvg_us := 0 }

/-- A Values state before its first compute (interval 0). -/
def valuesFirst : ValuesState :=
  { valuesNoMargin with Margin := 0 }

/-- A Values state that already has a recorded measurement interval. -/
def valuesLater : ValuesState :=
  { valuesNoMargin with Margin := 0, interval := 20000 }

/-- A power-simulation command well beyond the clipping bounds: generated
power 20000 W, consumed power 1000 W. -/
def simPowerBig : SimulState :=
  { mode := SimulMode.SIMUL_POWER, Pg := 20000, Pc := 1000 }

/-- A one-sample cycle with all channels at mid-scale. -/
def cycleFlat : MeasureState :=
  { numSamples := 1
    V0 := fun _ => 500
    Vx := fun _ => 500
    Ig := fun _ => 500
    Ic := fun _ => 500
    samplingUs := fun _ => 150
    prevCycleStartUs := 0
    cycleStartUs := 1000 }

/-! Helper lemmas -/

theorem le_constrain (x lo hi : ℚ) (h : lo ≤ hi) : lo ≤ constrain x lo hi := by
  unfold constrain
  split_ifs with h1 h2 <;> linarith

theorem constrain_le (x lo hi : ℚ) (h : lo ≤ hi) : constrain x lo hi ≤ hi := by
  unfold constrain
  split_ifs with h1 h2 <;> linarith

theorem findRev_some {p : Nat → Bool} :
    ∀ {n k : Nat}, findRev p n = some k →
      k < n ∧ p k = true ∧ ∀ j, k < j → j < n → p j = false := by
  intro n
  induction n with
  | zero => intro k h; exact absurd h (by simp [findRev])
  | succ n ih =>
      intro k h
      unfold findRev at h
      by_cases hp : p n
      · rw [if_pos hp] at h
        obtain rfl : n = k := by injection h
        exact ⟨Nat.lt_succ_self n, hp, fun j h1 h2 => (by omega : False).elim⟩
      · rw [if_neg hp] at h
        obtain ⟨h1, h2, h3⟩ := ih h
        refine ⟨by omega, h2, fun j hkj hjn => ?_⟩
        rcases (by omega : j < n ∨ j = n) with hj | hj
        · exact h3 j hkj hj
        · subst hj; exact eq_false_of_ne_true hp

theorem findRev_exists {p : Nat → Bool} :
    ∀ {n i : Nat}, i < n → p i = true → ∃ k, findRev p n = some k := by
  intro n
  induction n with
  | zero => intro i h; omega
  | succ n ih =>
      intro i hin hp
      by_cases hn : p n
      · exact ⟨n, by unfold findRev; rw [if_pos hn]⟩
      · have hi : i < n := by
          rcases (by omega : i < n ∨ i = n) with h | h
          · exact h
          · subst h; exact absurd hp hn
        obtain ⟨k, hk⟩ := ih hi hp
        exact ⟨k, by unfold findRev; rw [if_neg hn]; exact hk⟩

theorem oneSecState_isOn (dRead : Int → Bool) (ct : CountTimeState) (s : LoadsState) :
    (Loads.oneSecState dRead ct s).isOn = s.isOn := by
  unfold Loads.oneSecState Loads.oneSecondTask
  split <;> rfl

theorem oneSecState_nLoads (dRead : Int → Bool) (ct : CountTimeState) (s : LoadsState) :
    (Loads.oneSecState dRead ct s).nLoads = s.nLoads := by
  unfold Loads.oneSecState Loads.oneSecondTask
  split <;> rfl

theorem oneSecState_lockOffSec (dRead : Int → Bool) (ct : CountTimeState) (s : LoadsState) :
    (Loads.oneSecState dRead ct s).lockOffSec = s.lockOffSec := by
  unfold Loads.oneSecState Loads.oneSecondTask
  split <;> rfl

theorem decide_eq_decideTask (dRead : Int → Bool) (ct : CountTimeState)
    (v : ValuesState) (s : LoadsState) (hD : ct.flagDecide = true) :
    Loads.decide dRead ct v s = Loads.decideTask v (Loads.oneSecState dRead ct s) := by
  unfold Loads.decide
  rw [hD]
  rfl

theorem rule1_cases {v : ValuesState} {s : LoadsState} {k : Nat}
    (h : Loads.rule1 v s = some k) :
    v.Margin ≤ 0 ∧ findRev s.isOn s.nLoads = some k := by
  unfold Loads.rule1 at h
  split_ifs at h with hm
  exact ⟨hm, h⟩

theorem rule2_cases {v : ValuesState} {s : LoadsState} {k : Nat}
    (h : Loads.rule2 v s = some k) :
    v.PnFilt ≤ 0 ∧ s.solarMode k = true ∧ s.isOn k = true ∧ s.lockSec k = 0 := by
  unfold Loads.rule2 at h
  split_ifs at h with hm
  obtain ⟨-, hp, -⟩ := findRev_some h
  simp only [Bool.and_eq_true, decide_eq_true_eq] at hp
  exact ⟨hm, hp.1.1, hp.1.2, hp.2⟩

theorem rule3_cases {v : ValuesState} {s : LoadsState} {ij : Nat × Nat}
    (h : Loads.rule3 v s = some ij) :
    s.isOn ij.2 = true ∧ s.solarMode ij.2 = true ∧ s.lockSec ij.2 = 0 := by
  unfold Loads.rule3 at h
  have hp := List.find?_some h
  simp only [Bool.and_eq_true, decide_eq_true_eq] at hp
  exact ⟨hp.2.1.1.1, hp.2.1.1.2, hp.2.1.2⟩

theorem rule4_cases {v : ValuesState} {s : LoadsState} {k : Nat}
    (h : Loads.rule4 v s = some k) :
    s.isOn k = false ∧ s.lockSec k = 0 ∧ s.powerW k < v.Margin := by
  unfold Loads.rule4 findFwd at h
  have hp := List.find?_some h
  simp only [Bool.and_eq_true, decide_eq_true_eq, Bool.not_eq_true'] at hp
  exact ⟨hp.1.1.1, hp.1.1.2, hp.1.2⟩

theorem decideTask_rule1 {v : ValuesState} {s : LoadsState} {i : Nat}
    (h : Loads.rule1 v s = some i) :
    Loads.decideTask v s = Loads.switchOff s i "no margin" := by
  unfold Loads.decideTask
  rw [h]

theorem decideTask_rule2 {v : ValuesState} {s : LoadsState} {i : Nat}
    (h1 : Loads.rule1 v s = none) (h2 : Loads.rule2 v s = some i) :
    Loads.decideTask v s = Loads.switchOff s i "no excedent" := by
  unfold Loads.decideTask
  rw [h1, h2]

theorem decideTask_rule3 {v : ValuesState} {s : LoadsState} {ij : Nat × Nat}
    (h1 : Loads.rule1 v s = none) (h2 : Loads.rule2 v s = none)
    (h3 : Loads.rule3 v s = some ij) :
    Loads.decideTask v s = Loads.switchOff s ij.2 "priority inversion" := by
  unfold Loads.decideTask
  rw [h1, h2, h3]

theorem decideTask_rule4 {v : ValuesState} {s : LoadsState} {i : Nat}
    (h1 : Loads.rule1 v s = none) (h2 : Loads.rule2 v s = none)
    (h3 : Loads.rule3 v s = none) (h4 : Loads.rule4 v s = some i) :
    Loads.decideTask v s =
      Loads.switchOn s i
        (if s.solarMode i then "enough excedent and margin" else "enough margin") := by
  unfold Loads.decideTask
  rw [h1, h2, h3, h4]

theorem decideTask_none {v : ValuesState} {s : LoadsState}
    (h1 : Loads.rule1 v s = none) (h2 : Loads.rule2 v s = none)
    (h3 : Loads.rule3 v s = none) (h4 : Loads.rule4 v s = none) :
    Loads.decideTask v s = s := by
  unfold Loads.decideTask
  rw [h1, h2, h3, h4]

theorem decideTask_local (v : ValuesState) (s : LoadsState) :
    ∃ k, ∀ m, m ≠ k → (Loads.decideTask v s).isOn m = s.isOn m := by
  rcases h1 : Loads.rule1 v s with _ | i
  case some =>
    exact ⟨i, fun m hm => by
      rw [decideTask_rule1 h1]
      exact Function.update_noteq hm _ _⟩
  rcases h2 : Loads.rule2 v s with _ | i
  case some =>
    exact ⟨i, fun m hm => by
      rw [decideTask_rule2 h1 h2]
      exact Function.update_noteq hm _ _⟩
  rcases h3 : Loads.rule3 v s with _ | ij
  case some =>
    exact ⟨ij.2, fun m hm => by
      rw [decideTask_rule3 h1 h2 h3]
      exact Function.update_noteq hm _ _⟩
  rcases h4 : Loads.rule4 v s with _ | i
  case some =>
    exact ⟨i, fun m hm => by
      rw [decideTask_rule4 h1 h2 h3 h4]
      exact Function.update_noteq hm _ _⟩
  exact ⟨0, fun m _ => by rw [decideTask_none h1 h2 h3 h4]⟩

/-! Claim theorems -/

/-- C5: the claim reads: Radio::send returns a failure indicator if and
only if the protocol is unsupported or the channel is outside 1..3, and
in particular returns a success indicator for RADIO_GMOMXEN with channel
1..3. The switch statement in Radio::send is missing a break, so the
GMOMXEN case falls through into default and every call returns the
failure indicator -1, as this evaluation of the model at the claimed
success inputs shows. -/
theorem C5_send_always_fails :
    Radio.send RadioHW.RADIO_GMOMXEN 1 true = -1 ∧
    Radio.send RadioHW.RADIO_GMOMXEN 2 true = -1 ∧
    Radio.send RadioHW.RADIO_GMOMXEN 3 false = -1 := by
  exact ⟨rfl, rfl, rfl⟩

/-- C4: the claim reads: a load registered with gpioMode = -1 keeps
solarMode = true forever, because only loads with an assigned mode-switch
input are re-sampled. The one-second task of Loads::decide actually
executes solarMode[i] = digitalRead(gpioMode[i]) for every registered
load with no gpioMode check, so a pinless load (registered solar, as the
second conjunct shows) has its mode overwritten by the read of invalid
pin -1: with that read returning LOW the load drops out of solar mode
after one second, as the model evaluates here. -/
theorem C4_pinless_load_mode_overwritten :
    loadsNoPin.gpioMode 0 = -1 ∧ loadsNoPin.solarMode 0 = true ∧
    (Loads.decide dReadFalse ctOneSec valuesNoMargin loadsNoPin).solarMode 0 = false := by
  refine ⟨by decide, by decide, by decide⟩

/-- C1: for every call to Loads::decide with the decide flag set, at most
one load changes its on/off state during the call: any two indices whose
state differs after the call are equal, because each rule switches a
single load and returns at once. -/
theorem C1_decide_changes_at_most_one_load (dRead : Int → Bool)
    (ct : CountTimeState) (v : ValuesState) (s : LoadsState)
    (hD : ct.flagDecide = true) (i j : Nat)
    (hi : (Loads.decide dRead ct v s).isOn i ≠ s.isOn i)
    (hj : (Loads.decide dRead ct v s).isOn j ≠ s.isOn j) : i = j := by
  rw [decide_eq_decideTask dRead ct v s hD] at hi hj
  obtain ⟨k, hk⟩ := decideTask_local v (Loads.oneSecState dRead ct s)
  have hon := oneSecState_isOn dRead ct s
  have hik : i = k := by
    by_contra h
    exact hi (by rw [hk i h, hon])
  have hjk : j = k := by
    by_contra h
    exact hj (by rw [hk j h, hon])
  rw [hik, hjk]

/-- Witness for C1 at a concrete input: one on-load, Margin -1, decide
flag set; rule 1 switches load 0 off and the theorem applies. -/
theorem C1_witness :
    ctDecide.flagDecide = true ∧
    (Loads.decide dReadFalse ctDecide valuesNoMargin loadsOneOn).isOn 0 ≠ loadsOneOn.isOn 0 ∧
    (0 : Nat) = 0 :=
  ⟨rfl, by decide,
   C1_decide_changes_at_most_one_load dReadFalse ctDecide valuesNoMargin loadsOneOn
     rfl 0 0 (by decide) (by decide)⟩

/-- C2: whenever Loads::decide runs with the decide flag set and
Margin <= 0, and at least one load is on, the single applied change is
switching off the currently-on load of greatest index (lowest priority),
with no lock-timer condition: its lock-off timer is loaded, the cause
becomes "no margin", and every other load keeps its state, so no
rule-2/3/4 change happens in that call. -/
theorem C2_rule1_takes_precedence (dRead : Int → Bool) (ct : CountTimeState)
    (v : ValuesState) (s : LoadsState) (hD : ct.flagDecide = true)
    (hM : v.Margin ≤ 0) (hOn : ∃ i, i < s.nLoads ∧ s.isOn i = true) :
    ∃ k, k < s.nLoads ∧ s.isOn k = true
      ∧ (∀ j, k < j → j < s.nLoads → s.isOn j = false)
      ∧ (Loads.decide dRead ct v s).isOn k = false
      ∧ (∀ m, m ≠ k → (Loads.decide dRead ct v s).isOn m = s.isOn m)
      ∧ (Loads.decide dRead ct v s).lockSec k = s.lockOffSec k
      ∧ (Loads.decide dRead ct v s).cause = "no margin" := by
  obtain ⟨i, hin, hion⟩ := hOn
  have hon := oneSecState_isOn dRead ct s
  have hn := oneSecState_nLoads dRead ct s
  have hoff := oneSecState_lockOffSec dRead ct s
  obtain ⟨k, hk⟩ := findRev_exists (p := (Loads.oneSecState dRead ct s).isOn)
    (n := (Loads.oneSecState dRead ct s).nLoads) (i := i)
    (by rw [hn]; exact hin) (by rw [hon]; exact hion)
  have h1 : Loads.rule1 v (Loads.oneSecState dRead ct s) = some k := by
    unfold Loads.rule1
    rw [if_pos hM]
    exact hk
  have hpost : Loads.decide dRead ct v s =
      Loads.switchOff (Loads.oneSecState dRead ct s) k "no margin" := by
    rw [decide_eq_decideTask dRead ct v s hD]
    exact decideTask_rule1 h1
  obtain ⟨hkn, hpk, hgr⟩ := findRev_some hk
  refine ⟨k, ?_, ?_, ?_, ?_, ?_, ?_, ?_⟩
  · rw [← hn]; exact hkn
  · rw [← hon]; exact hpk
  · intro j hkj hjn
    rw [← hon]
    exact hgr j hkj (by rw [hn]; exact hjn)
  · rw [hpost]
    exact Function.update_same _ _ _
  · intro m hm
    rw [hpost]
    have hu : (Loads.switchOff (Loads.oneSecState dRead ct s) k "no margin").isOn m =
        (Loads.oneSecState dRead ct s).isOn m := Function.update_noteq hm _ _
    rw [hu, hon]
  · rw [hpost]
    have hu : (Loads.switchOff (Loads.oneSecState dRead ct s) k "no margin").lockSec k =
        (Loads.oneSecState dRead ct s).lockOffSec k := Function.update_same _ _ _
    rw [hu, hoff]
  · rw [hpost]
    rfl

/-- Witness for C2 at a concrete input: one on-load, Margin -1, decide
flag set; load 0 is the switched-off least-priority on-load. -/
theorem C2_witness :
    ∃ k, k < loadsOneOn.nLoads ∧ loadsOneOn.isOn k = true
      ∧ (∀ j, k < j → j < loadsOneOn.nLoads → loadsOneOn.isOn j = false)
      ∧ (Loads.decide dReadFalse ctDecide valuesNoMargin loadsOneOn).isOn k = false
      ∧ (∀ m, m ≠ k →
          (Loads.decide dReadFalse ctDecide valuesNoMargin loadsOneOn).isOn m = loadsOneOn.isOn m)
      ∧ (Loads.decide dReadFalse ctDecide valuesNoMargin loadsOneOn).lockSec k = loadsOneOn.lockOffSec k
      ∧ (Loads.decide dReadFalse ctDecide valuesNoMargin loadsOneOn).cause = "no margin" :=
  C2_rule1_takes_precedence dReadFalse ctDecide valuesNoMargin loadsOneOn
    rfl (by norm_num [valuesNoMargin]) ⟨0, by decide, by decide⟩

/-- C3: in any call to Loads::decide, a load whose lock-seconds counter is
still positive when the rules run (after the every-second decrement) never
has its on/off state changed by rules 2, 3 or 4: if its state changed at
all, it was rule 1 that switched it off, so Margin <= 0, the load was on,
it ends off, and the recorded cause is "no margin". -/
theorem C3_locked_load_only_rule1 (dRead : Int → Bool) (ct : CountTimeState)
    (v : ValuesState) (s : LoadsState) (i : Nat)
    (hL : 0 < (Loads.oneSecState dRead ct s).lockSec i)
    (hC : (Loads.decide dRead ct v s).isOn i ≠ s.isOn i) :
    v.Margin ≤ 0 ∧ s.isOn i = true ∧ (Loads.decide dRead ct v s).isOn i = false ∧
      (Loads.decide dRead ct v s).cause = "no margin" := by
  have hon := oneSecState_isOn dRead ct s
  by_cases hD : ct.flagDecide = true
  case neg =>
    exfalso
    apply hC
    have heq : Loads.decide dRead ct v s = Loads.oneSecState dRead ct s := by
      unfold Loads.decide
      rw [if_neg hD]
    rw [heq, hon]
  case pos =>
  rw [decide_eq_decideTask dRead ct v s hD] at hC ⊢
  rcases h1 : Loads.rule1 v (Loads.oneSecState dRead ct s) with _ | k
  case some =>
    have heq := decideTask_rule1 h1
    rw [heq] at hC ⊢
    have hik : i = k := by
      by_contra hne
      have hu : (Loads.switchOff (Loads.oneSecState dRead ct s) k "no margin").isOn i =
          (Loads.oneSecState dRead ct s).isOn i := Function.update_noteq hne _ _
      exact hC (by rw [hu, hon])
    subst hik
    obtain ⟨hm, hfr⟩ := rule1_cases h1
    obtain ⟨-, hpk, -⟩ := findRev_some hfr
    refine ⟨hm, ?_, ?_, rfl⟩
    · rw [← hon]; exact hpk
    · exact Function.update_same _ _ _
  rcases h2 : Loads.rule2 v (Loads.oneSecState dRead ct s) with _ | k
  case some =>
    have heq := decideTask_rule2 h1 h2
    rw [heq] at hC
    have hik : i = k := by
      by_contra hne
      have hu : (Loads.switchOff (Loads.oneSecState dRead ct s) k "no excedent").isOn i =
          (Loads.oneSecState dRead ct s).isOn i := Function.update_noteq hne _ _
      exact hC (by rw [hu, hon])
    subst hik
    obtain ⟨-, -, -, hz⟩ := rule2_cases h2
    omega
  rcases h3 : Loads.rule3 v (Loads.oneSecState dRead ct s) with _ | ij
  case some =>
    have heq := decideTask_rule3 h1 h2 h3
    rw [heq] at hC
    have hik : i = ij.2 := by
      by_contra hne
      have hu : (Loads.switchOff (Loads.oneSecState dRead ct s) ij.2 "priority inversion").isOn i =
          (Loads.oneSecState dRead ct s).isOn i := Function.update_noteq hne _ _
      exact hC (by rw [hu, hon])
    subst hik
    obtain ⟨-, -, hz⟩ := rule3_cases h3
    omega
  rcases h4 : Loads.rule4 v (Loads.oneSecState dRead ct s) with _ | k
  case some =>
    have heq := decideTask_rule4 h1 h2 h3 h4
    rw [heq] at hC
    have hik : i = k := by
      by_contra hne
      have hu : (Loads.switchOn (Loads.oneSecState dRead ct s) k
          (if (Loads.oneSecState dRead ct s).solarMode k then "enough excedent and margin"
           else "enough margin")).isOn i =
          (Loads.oneSecState dRead ct s).isOn i := Function.update_noteq hne _ _
      exact hC (by rw [hu, hon])
    subst hik
    obtain ⟨-, hz, -⟩ := rule4_cases h4
    omega
  exfalso
  apply hC
  rw [decideTask_none h1 h2 h3 h4, hon]

/-- Witness for C3 at a concrete input: the single on-load is locked for 5
more seconds, Margin is -1, and rule 1 still switches it off. -/
theorem C3_witness :
    valuesNoMargin.Margin ≤ 0 ∧ loadsOneOn.isOn 0 = true ∧
    (Loads.decide dReadFalse ctDecide valuesNoMargin loadsOneOn).isOn 0 = false ∧
    (Loads.decide dReadFalse ctDecide valuesNoMargin loadsOneOn).cause = "no margin" :=
  C3_locked_load_only_rule1 dReadFalse ctDecide valuesNoMargin loadsOneOn 0
    (by decide) (by decide)

/-- C6 counterexample: the claim also asserts PnFilt = PgFilt + PcFilt on
the first (seeding) cycle. With the power-simulation override Pg 20000 W,
Pc 1000 W on the very first cycle, Pg clips to 9999 while the raw net
19000 also clips to 9999, so the seeded PnFilt is 9999 but
PgFilt + PcFilt = 9999 - 1000 = 8999. -/
theorem C6_counterexample :
    ¬ ((Values.compute sqrtIdent simPowerBig cycleFlat valuesFirst).PnFilt =
       (Values.compute sqrtIdent simPowerBig cycleFlat valuesFirst).PgFilt +
       (Values.compute sqrtIdent simPowerBig cycleFlat valuesFirst).PcFilt) := by
  have h1 : (Values.compute sqrtIdent simPowerBig cycleFlat valuesFirst).PnFilt =
      constrain (((20000 : Int) : ℚ) + -((1000 : Int) : ℚ)) (-9999) 9999 := rfl
  have h2 : (Values.compute sqrtIdent simPowerBig cycleFlat valuesFirst).PgFilt =
      constrain ((20000 : Int) : ℚ) 0 9999 := rfl
  have h3 : (Values.compute sqrtIdent simPowerBig cycleFlat valuesFirst).PcFilt =
      constrain (-((1000 : Int) : ℚ)) (-9999) 0 := rfl
  rw [h1, h2, h3]
  norm_num [constrain]

/-- C6 (amended): after every call to Values::compute that already has a
recorded measurement interval (not the first cycle), the filtered net
power is recomputed as the sum of the two filtered components:
PnFilt = PgFilt + PcFilt. On the first cycle the three filtered values
are seeded from the individually clipped raw values and the identity can
fail when clipping is active. -/
theorem C6_filtered_net_is_component_sum (sqrtA : ℚ → ℚ) (sm : SimulState)
    (cm : MeasureState) (s : ValuesState) (h : s.interval ≠ 0) :
    (Values.compute sqrtA sm cm s).PnFilt =
      (Values.compute sqrtA sm cm s).PgFilt +
      (Values.compute sqrtA sm cm s).PcFilt := by
  show Values.PnFiltNew sqrtA sm cm s =
    Values.PgFiltNew sqrtA sm cm s + Values.PcFiltNew sqrtA sm cm s
  unfold Values.PnFiltNew
  rw [if_neg h]

/-- Witness for C6 at a concrete input with a recorded interval. -/
theorem C6_witness :
    valuesLater.interval ≠ 0 ∧
    (Values.compute sqrtIdent simPowerBig cycleFlat valuesLater).PnFilt =
      (Values.compute sqrtIdent simPowerBig cycleFlat valuesLater).PgFilt +
      (Values.compute sqrtIdent simPowerBig cycleFlat valuesLater).PcFilt :=
  ⟨by decide,
   C6_filtered_net_is_component_sum sqrtIdent simPowerBig cycleFlat valuesLater (by decide)⟩

/-- C7: after every call to Values::compute, for every sample cycle,
simulation override, prior state and square-root behaviour, the snapshot
outputs lie within the documented clipping bounds: VxEff in [0, 999],
IgEff and IcEff in [0, 99], Pg in [0, 9999], Pc in [-9999, 0], Pn in
[-9999, 9999], PFg and PFc in [0, 0.99]. -/
theorem C7_outputs_within_bounds (sqrtA : ℚ → ℚ) (sm : SimulState)
    (cm : MeasureState) (s : ValuesState) :
    (0 ≤ (Values.compute sqrtA sm cm s).VxEff ∧ (Values.compute sqrtA sm cm s).VxEff ≤ 999) ∧
    (0 ≤ (Values.compute sqrtA sm cm s).IgEff ∧ (Values.compute sqrtA sm cm s).IgEff ≤ 99) ∧
    (0 ≤ (Values.compute sqrtA sm cm s).IcEff ∧ (Values.compute sqrtA sm cm s).IcEff ≤ 99) ∧
    (0 ≤ (Values.compute sqrtA sm cm s).Pg ∧ (Values.compute sqrtA sm cm s).Pg ≤ 9999) ∧
    (-9999 ≤ (Values.compute sqrtA sm cm s).Pc ∧ (Values.compute sqrtA sm cm s).Pc ≤ 0) ∧
    (-9999 ≤ (Values.compute sqrtA sm cm s).Pn ∧ (Values.compute sqrtA sm cm s).Pn ≤ 9999) ∧
    (0 ≤ (Values.compute sqrtA sm cm s).PFg ∧ (Values.compute sqrtA sm cm s).PFg ≤ 99 / 100) ∧
    (0 ≤ (Values.compute sqrtA sm cm s).PFc ∧ (Values.compute sqrtA sm cm s).PFc ≤ 99 / 100) := by
  exact ⟨⟨le_constrain _ 0 999 (by norm_num), constrain_le _ 0 999 (by norm_num)⟩,
    ⟨le_constrain _ 0 99 (by norm_num), constrain_le _ 0 99 (by norm_num)⟩,
    ⟨le_constrain _ 0 99 (by norm_num), constrain_le _ 0 99 (by norm_num)⟩,
    ⟨le_constrain _ 0 9999 (by norm_num), constrain_le _ 0 9999 (by norm_num)⟩,
    ⟨le_constrain _ (-9999) 0 (by norm_num), constrain_le _ (-9999) 0 (by norm_num)⟩,
    ⟨le_constrain _ (-9999) 9999 (by norm_num), constrain_le _ (-9999) 9999 (by norm_num)⟩,
    ⟨le_constrain _ 0 (99 / 100) (by norm_num), constrain_le _ 0 (99 / 100) (by norm_num)⟩,
    ⟨le_constrain _ 0 (99 / 100) (by norm_num), constrain_le _ 0 (99 / 100) (by norm_num)⟩⟩

theorem appliedOutputs_append (a b : List OutEvent) :
    appliedOutputs (a ++ b) = appliedOutputs a ++ appliedOutputs b := by
  unfold appliedOutputs
  exact List.filter_append _ _

theorem appliedOutputs_activateEventsFor (s : LoadsState) (n : Nat) :
    appliedOutputs (Loads.activateEventsFor s true n) = appliedEventsFor s n := by
  unfold Loads.activateEventsFor appliedEventsFor
  rw [if_pos (by simp : (s.flag n || true) = true)]
  by_cases hf : s.flag n = true <;>
    split_ifs <;>
    simp [hf, appliedOutputs, List.filter]

theorem appliedOutputs_eventsUpTo (s : LoadsState) :
    ∀ n, appliedOutputs (Loads.eventsUpTo s true n) = appliedUpTo s n := by
  intro n
  induction n with
  | zero => rfl
  | succ n ih =>
      show appliedOutputs (Loads.eventsUpTo s true n ++ Loads.activateEventsFor s true n) = _
      rw [appliedOutputs_append, ih, appliedOutputs_activateEventsFor]
      rfl

theorem appliedUpTo_congr (s t : LoadsState)
    (h : ∀ i, appliedEventsFor s i = appliedEventsFor t i) :
    ∀ n, appliedUpTo s n = appliedUpTo t n := by
  intro n
  induction n with
  | zero => rfl
  | succ n ih =>
      show appliedUpTo s n ++ appliedEventsFor s n = appliedUpTo t n ++ appliedEventsFor t n
      rw [ih, h n]

/-- C8: Loads::activate never modifies any load's on/off state, lock
counter, solar/manual mode or configuration fields (nor the registry size
or cause): it only clears change-pending flags and emits log lines,
output writes and radio commands. Consequently a refresh pass applies the
outputs of the current state without touching lock timers, and a repeated
refresh call on the resulting state applies exactly the same outputs
(idempotent replay). -/
theorem C8_activate_frame_and_idempotent (ct ct2 : CountTimeState)
    (s : LoadsState) (hR : ct2.flagRefresh = true) :
    (Loads.activate ct s).1.nLoads = s.nLoads ∧
    (Loads.activate ct s).1.isOn = s.isOn ∧
    (Loads.activate ct s).1.lockSec = s.lockSec ∧
    (Loads.activate ct s).1.solarMode = s.solarMode ∧
    (Loads.activate ct s).1.cause = s.cause ∧
    (Loads.activate ct s).1.name = s.name ∧
    (Loads.activate ct s).1.powerW = s.powerW ∧
    (Loads.activate ct s).1.lockOnSec = s.lockOnSec ∧
    (Loads.activate ct s).1.lockOffSec = s.lockOffSec ∧
    (Loads.activate ct s).1.gpioOut = s.gpioOut ∧
    (Loads.activate ct s).1.gpioMode = s.gpioMode ∧
    (Loads.activate ct s).1.radioModel = s.radioModel ∧
    (Loads.activate ct s).1.channel = s.channel ∧
    (∀ i, (Loads.activate ct s).1.flag i = false ∨ (Loads.activate ct s).1.flag i = s.flag i) ∧
    appliedOutputs (Loads.activate ct2 (Loads.activate ct s).1).2 =
      appliedOutputs (Loads.activate ct2 s).2 := by
  refine ⟨rfl, rfl, rfl, rfl, rfl, rfl, rfl, rfl, rfl, rfl, rfl, rfl, rfl, ?_, ?_⟩
  · intro i
    show (if i < s.nLoads ∧ (s.flag i || ct.flagRefresh) then false else s.flag i) = false ∨
      (if i < s.nLoads ∧ (s.flag i || ct.flagRefresh) then false else s.flag i) = s.flag i
    split_ifs with h
    · exact Or.inl rfl
    · exact Or.inr rfl
  · have key : ∀ t : LoadsState,
        appliedOutputs (Loads.activate ct2 t).2 = appliedUpTo t t.nLoads := by
      intro t
      show appliedOutputs (Loads.eventsUpTo t ct2.flagRefresh t.nLoads) = _
      rw [hR]
      exact appliedOutputs_eventsUpTo t t.nLoads
    rw [key, key]
    rw [show (Loads.activate ct s).1.nLoads = s.nLoads from rfl]
    exact appliedUpTo_congr (Loads.activate ct s).1 s (fun i => rfl) s.nLoads

/-- Witness for C8 at a concrete input: one registered load, a refresh
pass after an arbitrary first activation. -/
theorem C8_witness :
    (Loads.activate ctDecide loadsOneOn).1.nLoads = loadsOneOn.nLoads ∧
    (Loads.activate ctDecide loadsOneOn).1.isOn = loadsOneOn.isOn ∧
    (Loads.activate ctDecide loadsOneOn).1.lockSec = loadsOneOn.lockSec ∧
    (Loads.activate ctDecide loadsOneOn).1.solarMode = loadsOneOn.solarMode ∧
    (Loads.activate ctDecide loadsOneOn).1.cause = loadsOneOn.cause ∧
    (Loads.activate ctDecide loadsOneOn).1.name = loadsOneOn.name ∧
    (Loads.activate ctDecide loadsOneOn).1.powerW = loadsOneOn.powerW ∧
    (Loads.activate ctDecide loadsOneOn).1.lockOnSec = loadsOneOn.lockOnSec ∧
    (Loads.activate ctDecide loadsOneOn).1.lockOffSec = loadsOneOn.lockOffSec ∧
    (Loads.activate ctDecide loadsOneOn).1.gpioOut = loadsOneOn.gpioOut ∧
    (Loads.activate ctDecide loadsOneOn).1.gpioMode = loadsOneOn.gpioMode ∧
    (Loads.activate ctDecide loadsOneOn).1.radioModel = loadsOneOn.radioModel ∧
    (Loads.activate ctDecide loadsOneOn).1.channel = loadsOneOn.channel ∧
    (∀ i, (Loads.activate ctDecide loadsOneOn).1.flag i = false ∨
      (Loads.activate ctDecide loadsOneOn).1.flag i = loadsOneOn.flag i) ∧
    appliedOutputs (Loads.activate ctRefresh (Loads.activate ctDecide loadsOneOn).1).2 =
      appliedOutputs (Loads.activate ctRefresh loadsOneOn).2 :=
  C8_activate_frame_and_idempotent ctDecide ctRefresh loadsOneOn rfl

/-- C9: whenever the refresh countdown fires inside CountTime::update,
the countdown is reset to refreshPeriod_s plus the value returned by
random(-varRefreshPeriod_s, +varRefreshPeriod_s), which for every value
that call may return lies within
[refreshPeriod_s - varRefreshPeriod_s, refreshPeriod_s + varRefreshPeriod_s]
(for a nonnegative configured jitter bound). -/
theorem C9_refresh_reset_within_bounds (nowMs nowUs : Nat) (rand : Int)
    (s : CountTimeState) (hv : 0 ≤ s.varRefreshPeriod_s)
    (hr : randomPossible (-s.varRefreshPeriod_s) s.varRefreshPeriod_s rand = true)
    (hf : (CountTime.update nowMs nowUs rand s).flagRefresh = true) :
    s.refreshPeriod_s - s.varRefreshPeriod_s ≤
      (CountTime.update nowMs nowUs rand s).countRefresh_s ∧
    (CountTime.update nowMs nowUs rand s).countRefresh_s ≤
      s.refreshPeriod_s + s.varRefreshPeriod_s := by
  have hrand : -s.varRefreshPeriod_s ≤ rand ∧ rand ≤ s.varRefreshPeriod_s := by
    unfold randomPossible at hr
    split_ifs at hr with hc
    · have := of_decide_eq_true hr
      omega
    · simp only [Bool.and_eq_true, decide_eq_true_eq] at hr
      omega
  by_cases h1 : ((nowMs % UINT32_MOD) + UINT32_MOD - (s.lastTime % UINT32_MOD)) % UINT32_MOD < 1000
  · exfalso
    have hF : (CountTime.update nowMs nowUs rand s).flagRefresh = false := by
      unfold CountTime.update
      rw [if_pos h1]
    rw [hF] at hf
    exact Bool.false_ne_true hf
  · have hflag : (CountTime.update nowMs nowUs rand s).flagRefresh
        = decide (s.countRefresh_s - 1 ≤ 0) := by
      unfold CountTime.update
      rw [if_neg h1]
    have hproj : (CountTime.update nowMs nowUs rand s).countRefresh_s
        = (if s.countRefresh_s - 1 ≤ 0 then s.refreshPeriod_s + rand
           else s.countRefresh_s - 1) := by
      unfold CountTime.update
      rw [if_neg h1]
    rw [hflag] at hf
    have hc : s.countRefresh_s - 1 ≤ 0 := of_decide_eq_true hf
    rw [hproj, if_pos hc]
    constructor <;> omega

/-- Witness for C9 at a concrete input: the countdown at 1, a full second
elapsed, jitter value 0 within the allowed range. -/
theorem C9_witness :
    ctNearRefresh.refreshPeriod_s - ctNearRefresh.varRefreshPeriod_s ≤
      (CountTime.update 1000 0 0 ctNearRefresh).countRefresh_s ∧
    (CountTime.update 1000 0 0 ctNearRefresh).countRefresh_s ≤
      ctNearRefresh.refreshPeriod_s + ctNearRefresh.varRefreshPeriod_s :=
  C9_refresh_reset_within_bounds 1000 0 0 ctNearRefresh (by decide) (by decide) (by decide)

/-- C10: after a successful Loads::add (registry not full), the returned
status is 0, the new load sits at the previously next free slot with
on = false, change flag = true, lock counter 0, solarMode = true when no
mode-switch pin is given, nLoads grows by exactly one, and every
previously registered load keeps all its configuration and status
fields. -/
theorem C10_add_success (dRead : Int → Bool) (name_arg : String) (powerW_arg : ℚ)
    (lockOn lockOff gOut gMode : Int) (radioM : RadioHW) (chan : Int)
    (s : LoadsState) (h : s.nLoads < s.nLoadsMax) :
    (Loads.add dRead name_arg powerW_arg lockOn lockOff gOut gMode radioM chan s).1 = 0 ∧
    (Loads.add dRead name_arg powerW_arg lockOn lockOff gOut gMode radioM chan s).2.nLoads
      = s.nLoads + 1 ∧
    (Loads.add dRead name_arg powerW_arg lockOn lockOff gOut gMode radioM chan s).2.isOn s.nLoads
      = false ∧
    (Loads.add dRead name_arg powerW_arg lockOn lockOff gOut gMode radioM chan s).2.flag s.nLoads
      = true ∧
    (Loads.add dRead name_arg powerW_arg lockOn lockOff gOut gMode radioM chan s).2.lockSec s.nLoads
      = 0 ∧
    (gMode = -1 →
      (Loads.add dRead name_arg powerW_arg lockOn lockOff gOut gMode radioM chan s).2.solarMode s.nLoads
        = true) ∧
    (∀ j, j < s.nLoads →
      (Loads.add dRead name_arg powerW_arg lockOn lockOff gOut gMode radioM chan s).2.name j = s.name j ∧
      (Loads.add dRead name_arg powerW_arg lockOn lockOff gOut gMode radioM chan s).2.powerW j = s.powerW j ∧
      (Loads.add dRead name_arg powerW_arg lockOn lockOff gOut gMode radioM chan s).2.lockOnSec j = s.lockOnSec j ∧
      (Loads.add dRead name_arg powerW_arg lockOn lockOff gOut gMode radioM chan s).2.lockOffSec j = s.lockOffSec j ∧
      (Loads.add dRead name_arg powerW_arg lockOn lockOff gOut gMode radioM chan s).2.gpioOut j = s.gpioOut j ∧
      (Loads.add dRead name_arg powerW_arg lockOn lockOff gOut gMode radioM chan s).2.gpioMode j = s.gpioMode j ∧
      (Loads.add dRead name_arg powerW_arg lockOn lockOff gOut gMode radioM chan s).2.radioModel j = s.radioModel j ∧
      (Loads.add dRead name_arg powerW_arg lockOn lockOff gOut gMode radioM chan s).2.channel j = s.channel j ∧
      (Loads.add dRead name_arg powerW_arg lockOn lockOff gOut gMode radioM chan s).2.solarMode j = s.solarMode j ∧
      (Loads.add dRead name_arg powerW_arg lockOn lockOff gOut gMode radioM chan s).2.flag j = s.flag j ∧
      (Loads.add dRead name_arg powerW_arg lockOn lockOff gOut gMode radioM chan s).2.isOn j = s.isOn j ∧
      (Loads.add dRead name_arg powerW_arg lockOn lockOff gOut gMode radioM chan s).2.lockSec j = s.lockSec j) := by
  have hne : ¬ s.nLoads ≥ s.nLoadsMax := by omega
  unfold Loads.add
  rw [if_neg hne]
  refine ⟨rfl, rfl, Function.update_same _ _ _, Function.update_same _ _ _,
    Function.update_same _ _ _, ?_, ?_⟩
  · intro hm
    show Function.update s.solarMode s.nLoads
      (if gMode ≠ -1 then dRead gMode else true) s.nLoads = true
    rw [Function.update_same, if_neg (by simp [hm])]
  · intro j hj
    have hne2 : j ≠ s.nLoads := by omega
    exact ⟨Function.update_noteq hne2 _ _, Function.update_noteq hne2 _ _,
      Function.update_noteq hne2 _ _, Function.update_noteq hne2 _ _,
      Function.update_noteq hne2 _ _, Function.update_noteq hne2 _ _,
      Function.update_noteq hne2 _ _, Function.update_noteq hne2 _ _,
      Function.update_noteq hne2 _ _, Function.update_noteq hne2 _ _,
      Function.update_noteq hne2 _ _, Function.update_noteq hne2 _ _⟩

/-- Witness for C10 at a concrete input: registering a load into the
empty registry. -/
theorem C10_witness :
    (Loads.add dReadFalse "heat" 1500 300 300 5 (-1) RadioHW.RADIO_GMOMXEN 1 loads0).1 = 0 ∧
    (Loads.add dReadFalse "heat" 1500 300 300 5 (-1) RadioHW.RADIO_GMOMXEN 1 loads0).2.nLoads
      = loads0.nLoads + 1 ∧
    (Loads.add dReadFalse "heat" 1500 300 300 5 (-1) RadioHW.RADIO_GMOMXEN 1 loads0).2.isOn loads0.nLoads
      = false ∧
    (Loads.add dReadFalse "heat" 1500 300 300 5 (-1) RadioHW.RADIO_GMOMXEN 1 loads0).2.flag loads0.nLoads
      = true ∧
    (Loads.add dReadFalse "heat" 1500 300 300 5 (-1) RadioHW.RADIO_GMOMXEN 1 loads0).2.lockSec loads0.nLoads
      = 0 ∧
    ((-1 : Int) = -1 →
      (Loads.add dReadFalse "heat" 1500 300 300 5 (-1) RadioHW.RADIO_GMOMXEN 1 loads0).2.solarMode loads0.nLoads
        = true) ∧
    (∀ j, j < loads0.nLoads →
      (Loads.add dReadFalse "heat" 1500 300 300 5 (-1) RadioHW.RADIO_GMOMXEN 1 loads0).2.name j = loads0.name j ∧
      (Loads.add dReadFalse "heat" 1500 300 300 5 (-1) RadioHW.RADIO_GMOMXEN 1 loads0).2.powerW j = loads0.powerW j ∧
      (Loads.add dReadFalse "heat" 1500 300 300 5 (-1) RadioHW.RADIO_GMOMXEN 1 loads0).2.lockOnSec j = loads0.lockOnSec j ∧
      (Loads.add dReadFalse "heat" 1500 300 300 5 (-1) RadioHW.RADIO_GMOMXEN 1 loads0).2.lockOffSec j = loads0.lockOffSec j ∧
      (Loads.add dReadFalse "heat" 1500 300 300 5 (-1) RadioHW.RADIO_GMOMXEN 1 loads0).2.gpioOut j = loads0.gpioOut j ∧
      (Loads.add dReadFalse "heat" 1500 300 300 5 (-1) RadioHW.RADIO_GMOMXEN 1 loads0).2.gpioMode j = loads0.gpioMode j ∧
      (Loads.add dReadFalse "heat" 1500 300 300 5 (-1) RadioHW.RADIO_GMOMXEN 1 loads0).2.radioModel j = loads0.radioModel j ∧
      (Loads.add dReadFalse "heat" 1500 300 300 5 (-1) RadioHW.RADIO_GMOMXEN 1 loads0).2.channel j = loads0.channel j ∧
      (Loads.add dReadFalse "heat" 1500 300 300 5 (-1) RadioHW.RADIO_GMOMXEN 1 loads0).2.solarMode j = loads0.solarMode j ∧
      (Loads.add dReadFalse "heat" 1500 300 300 5 (-1) RadioHW.RADIO_GMOMXEN 1 loads0).2.flag j = loads0.flag j ∧
      (Loads.add dReadFalse "heat" 1500 300 300 5 (-1) RadioHW.RADIO_GMOMXEN 1 loads0).2.isOn j = loads0.isOn j ∧
      (Loads.add dReadFalse "heat" 1500 300 300 5 (-1) RadioHW.RADIO_GMOMXEN 1 loads0).2.lockSec j = loads0.lockSec j) :=
  C10_add_success dReadFalse "heat" 1500 300 300 5 (-1) RadioHW.RADIO_GMOMXEN 1 loads0 (by decide)

end SolarDiverter
